import Mathlib

/-!
# micro-ddns: third-party address detection

A shallow embedding of `internal/ip/thirdparty.go` and of the configuration types of
`internal/config/config.go` it uses, followed by theorems about
`NewThirdPartyAddressDetector`, `requestAddress`, `extractIP`, `detectV4`, `detectV6` and
`Detect`.

Conventions of the embedding:

* a Go `string` and a Go `[]byte` are both finite byte sequences, `GoString`; the conversion
  `string(body)` is the identity on them;
* a Go function returning `(string, error)` returns a `Ret`; a run-time panic is the `error`
  side of `Except Panic`;
* everything outside the two source files (the HTTP transport, `encoding/json`, `gojq`, and
  the address classifier of package `ip`) is a field of `World`, so every theorem holds for
  every behaviour of those parts;
* the logger and the 3 second deadlines have no counterpart: a deadline that fires shows up
  as an error returned by the transport or yielded by the query iterator.
-/

set_option autoImplicit false

namespace MicroDDNS

/-! ## Go values -/

/-- Go `string` / `[]byte`: a sequence of bytes. -/
abbrev GoString := List UInt8

/-- The bytes (UTF-8) of a string literal of the source. -/
def str (s : String) : GoString := s.data.flatMap String.utf8EncodeChar

/-- Model of `strings.Contains(s, substr)`. -/
def stringsContains : GoString → GoString → Bool
  | [], substr => substr.isEmpty
  | c :: s, substr => substr.isPrefixOf (c :: s) || stringsContains s substr

/-- A dynamically typed Go value (`any`) of the kinds `encoding/json` and `gojq` produce,
error values apart. A `float64` is kept as its decimal text. -/
inductive Dyn where
  | null
  | bool (b : Bool)
  | int (n : Int)
  | float64 (decimal : GoString)
  | string (s : GoString)
  | slice (xs : List Dyn)
  | map (kv : List (GoString × Dyn))

/-- A Go `error` value. -/
inductive GoError where
  /-- Built by `fmt.Errorf`, with the formatted text. -/
  | errorf (text : GoString)
  /-- Returned by a library; no `*gojq.HaltError` in its chain. -/
  | library (text : GoString)
  /-- An error for which `errors.As(err, &haltError)` succeeds; `value` is
  `haltError.Value()`, `none` for `nil`. -/
  | halt (value : Option Dyn)

/-- What `iter.Next()` hands out when `ok` is true: a value or an error value. -/
inductive Yielded where
  | value (v : Dyn)
  | error (err : GoError)

/-- The results of the successive calls of `Next()` on a `gojq.Iter`; `none` is
`ok == false`. The sequence may be infinite. -/
abbrev Iter := Nat → Option Yielded

/-- A run-time panic. -/
inductive Panic where
  /-- A nil pointer was dereferenced. -/
  | nilDereference
  /-- The type assertion `v.(string)` on a `v` that is not a string. -/
  | interfaceConversion (v : Dyn)

/-- The pair `(string, error)` a Go function returns; `err = none` is `nil`. -/
structure Ret where
  val : GoString
  err : Option GoError

/-! ## `internal/config/config.go` -/

abbrev NetworkStack := GoString

def IPv4 : NetworkStack := str "IPv4"
def IPv6 : NetworkStack := str "IPv6"

abbrev AddressDetectionType := GoString

def AddressDetectionIface : AddressDetectionType := str "Interface"
def AddressDetectionThirdParty : AddressDetectionType := str "ThirdParty"

abbrev LocalAddressPolicy := GoString

def LocalAddressPolicyIgnore : LocalAddressPolicy := str "Ignore"
def LocalAddressPolicyAllow : LocalAddressPolicy := str "Allow"
def LocalAddressPolicyPrefer : LocalAddressPolicy := str "Prefer"

/-- Go `map[string]string`: the entries, in the order a `range` loop visits them. -/
abbrev StringMap := List (GoString × GoString)

structure NetworkInterfaceDetectionSpec where
  Name : GoString

/-- A pointer field of the source is an `Option`; `none` is `nil`. -/
structure ThirdPartyServiceSpec where
  URL : GoString
  JsonPath : Option GoString
  Params : Option StringMap
  Headers : Option StringMap
  Username : Option GoString
  Password : Option GoString

/-- The field `Type` of the source is `DetectionType` here. -/
structure AddressDetectionSpec where
  DetectionType : AddressDetectionType
  LocalAddressPolicy : Option LocalAddressPolicy
  Interface : Option NetworkInterfaceDetectionSpec
  API : Option ThirdPartyServiceSpec

/-! ## `pkg/utils` -/

/-- Modelled from the spec: `utils.StringPtrToString` is not among the sources; construction
resolves an absent optional text field to the empty string. -/
def StringPtrToString : Option GoString → GoString
  | none => []
  | some s => s

/-- Modelled from the spec: `utils.MapPtrToMap` is not among the sources; construction
resolves an absent optional map to the empty mapping. -/
def MapPtrToMap : Option StringMap → StringMap
  | none => []
  | some m => m

/-! ## HTTP messages -/

/-- Go `url.Values` and `http.Header`, both `map[string][]string`. -/
abbrev MultiMap := List (GoString × List GoString)

/-- Assignment `m[key] = []string{value}`. -/
def MultiMap.assign (m : MultiMap) (key value : GoString) : MultiMap :=
  if m.any (fun e => e.1 == key) then
    m.map (fun e => if e.1 == key then (key, [value]) else e)
  else m ++ [(key, [value])]

/-- Index `m[key]`; the nil slice for a missing key. -/
def MultiMap.index (m : MultiMap) (key : GoString) : List GoString :=
  match m.find? (fun e => e.1 == key) with
  | some e => e.2
  | none => []

/-- An outgoing request: what `http.NewRequestWithContext(ctx, method, url, nil)` was given,
and the header map of the request. -/
structure Request where
  method : GoString
  url : GoString
  header : MultiMap

/-- A response as `requestAddress` sees it: the header map, and the two results of
`io.ReadAll(res.Body)`. -/
structure Response where
  header : MultiMap
  body : GoString
  readErr : Option GoError

/-! ## The parts outside the two source files -/

/-- The collaborators of the detector. -/
structure World where
  /-- `IsValidV4` of package `ip` (another file of the repository). -/
  IsValidV4 : GoString → Bool
  /-- `IsValidV6` of package `ip`. -/
  IsValidV6 : GoString → Bool
  /-- `IsPrivate` of package `ip`. -/
  IsPrivate : GoString → Bool
  /-- `textproto.CanonicalMIMEHeaderKey`, used by `Header.Set` and `Header.Get`. -/
  canonicalMIMEHeaderKey : GoString → GoString
  /-- The error of `http.NewRequestWithContext(ctx, "GET", url, nil)`, if any. -/
  newRequestErr : GoString → Option GoError
  /-- `http.DefaultClient.Do`. -/
  clientDo : Request → Except GoError Response
  /-- `json.Unmarshal(response, &body)` with `body` a `map[string]interface{}`. -/
  jsonUnmarshal : GoString → Except GoError (List (GoString × Dyn))
  /-- The type `*gojq.Query`. -/
  Query : Type
  /-- `gojq.Parse`. -/
  gojqParse : GoString → Except GoError Query
  /-- `query.RunWithContext(queryCtx, body)`. -/
  gojqRun : Query → List (GoString × Dyn) → Iter

/-- `h.Set(key, value)` of `http.Header`. -/
def headerSet (w : World) (h : MultiMap) (key value : GoString) : MultiMap :=
  h.assign (w.canonicalMIMEHeaderKey key) value

/-- `h.Get(key)` of `http.Header`: the first value of the canonical key, or `""`. -/
def headerGet (w : World) (h : MultiMap) (key : GoString) : GoString :=
  match h.index (w.canonicalMIMEHeaderKey key) with
  | [] => []
  | v :: _ => v

/-! ## `internal/ip/thirdparty.go` -/

structure ThirdPartyAddressDetector where
  url : GoString
  jsonPath : GoString
  params : StringMap
  headers : StringMap
  username : GoString
  password : GoString
  localAddressPolicy : LocalAddressPolicy
  stack : NetworkStack

/-- `NewThirdPartyAddressDetector`. Reading `spec.URL` through a nil `detectionSpec.API`
panics. -/
def NewThirdPartyAddressDetector (detectionSpec : AddressDetectionSpec) (stack : NetworkStack) :
    Except Panic ThirdPartyAddressDetector :=
  let policy : LocalAddressPolicy :=
    match detectionSpec.LocalAddressPolicy with
    | none => LocalAddressPolicyIgnore
    | some p => p
  match detectionSpec.API with
  | none => .error .nilDereference
  | some spec =>
    .ok {
      url := spec.URL
      jsonPath := StringPtrToString spec.JsonPath
      params := MapPtrToMap spec.Params
      headers := MapPtrToMap spec.Headers
      username := StringPtrToString spec.Username
      password := StringPtrToString spec.Password
      localAddressPolicy := policy
      stack := stack }

/-- Whether `errors.As(err, &haltError) && haltError.Value() == nil` holds. -/
def isHaltWithoutValue : GoError → Bool
  | .halt none => true
  | _ => false

/-- The body of the `for` loop of `extractIP`, run on the result of `iter.Next()`. Every path
through the body leaves the loop (`break`, `return` or the panic of `v.(string)`), so the
body runs once; the result is what `extractIP` then returns. -/
def extractLoop : Option Yielded → Except Panic Ret
  | none => .ok ⟨[], none⟩
  | some (.error err) =>
    if isHaltWithoutValue err then .ok ⟨[], none⟩ else .ok ⟨[], some err⟩
  | some (.value (.string s)) => .ok ⟨s, none⟩
  | some (.value v) => .error (.interfaceConversion v)

/-- `(*ThirdPartyAddressDetector).extractIP`. -/
def extractIP (w : World) (response : GoString) (jsonpath : GoString) : Except Panic Ret :=
  if response.length = 0 then .ok ⟨[], some (.errorf (str "response is empty"))⟩
  else if jsonpath.length = 0 then .ok ⟨[], some (.errorf (str "jsonpath is empty"))⟩
  else
    match w.jsonUnmarshal response with
    | .error err => .ok ⟨[], some err⟩
    | .ok body =>
      match w.gojqParse jsonpath with
      | .error err => .ok ⟨[], some err⟩
      | .ok query =>
        let iter := w.gojqRun query body
        extractLoop (iter 0)

/-- The local `params` of `requestAddress` after its first loop. -/
def requestParams (d : ThirdPartyAddressDetector) : MultiMap :=
  d.params.foldl (fun params kv => params.assign kv.1 kv.2) []

/-- The request `requestAddress` hands to `client.Do`: a GET of `d.url` with the headers of
`d.headers` set. The local `params` is not used in building it. -/
def requestOf (w : World) (d : ThirdPartyAddressDetector) : Request :=
  { method := str "GET"
    url := d.url
    header := d.headers.foldl (fun h kv => headerSet w h kv.1 kv.2) [] }

/-- The value of the local `header` of `requestAddress`. -/
def contentType (w : World) (res : Response) : GoString :=
  let header := headerGet w res.header (str "Content-Type")
  if header = [] then headerGet w res.header (str "content-type") else header

/-- `(*ThirdPartyAddressDetector).requestAddress`. The error of `io.ReadAll` is dropped, as
in the source. -/
def requestAddress (w : World) (d : ThirdPartyAddressDetector) : Except Panic Ret :=
  let _params := requestParams d
  match w.newRequestErr d.url with
  | some err => .ok ⟨[], some err⟩
  | none =>
    let req := requestOf w d
    match w.clientDo req with
    | .error err => .ok ⟨[], some err⟩
    | .ok res =>
      let body := res.body
      let header := contentType w res
      if stringsContains header (str "application/json") || d.jsonPath ≠ [] then
        if d.jsonPath = [] then .ok ⟨[], some (.errorf (str "no jsonpath specified"))⟩
        else extractIP w body d.jsonPath
      else .ok ⟨body, none⟩

/-- `(*ThirdPartyAddressDetector).detectV4`. -/
def detectV4 (w : World) (d : ThirdPartyAddressDetector) : Except Panic Ret :=
  match requestAddress w d with
  | .error p => .error p
  | .ok ⟨_, some err⟩ => .ok ⟨[], some err⟩
  | .ok ⟨val, none⟩ =>
    if !w.IsValidV4 val then .ok ⟨[], some (.errorf (str "invalid address: " ++ val))⟩
    else if w.IsPrivate val then
      if d.localAddressPolicy = LocalAddressPolicyIgnore then
        .ok ⟨[], some (.errorf (str "local address is ignored: " ++ val))⟩
      else .ok ⟨val, none⟩
    else .ok ⟨val, none⟩

/-- `(*ThirdPartyAddressDetector).detectV6`. -/
def detectV6 (w : World) (d : ThirdPartyAddressDetector) : Except Panic Ret :=
  match requestAddress w d with
  | .error p => .error p
  | .ok ⟨_, some err⟩ => .ok ⟨[], some err⟩
  | .ok ⟨val, none⟩ =>
    if !w.IsValidV6 val then .ok ⟨[], some (.errorf (str "invalid address: " ++ val))⟩
    else if w.IsPrivate val then
      if d.localAddressPolicy = LocalAddressPolicyIgnore then
        .ok ⟨[], some (.errorf (str "ULA address is ignored: " ++ val))⟩
      else .ok ⟨val, none⟩
    else .ok ⟨val, none⟩

/-- `(*ThirdPartyAddressDetector).Detect`. -/
def Detect (w : World) (d : ThirdPartyAddressDetector) : Except Panic Ret :=
  if d.stack = IPv6 then detectV6 w d else detectV4 w d

/-! ## An executable instance of the collaborators

The theorems below hold for every `World`. To run the detector on concrete inputs, this
section gives one `World`: the address classifier as the spec describes it, and small
executable versions of the library functions (`textproto.CanonicalMIMEHeaderKey`, a JSON
decoder without `\u` escapes, and a query language of comma separated paths such as
`.data.ip`, `empty`, `halt` and `halt_error`). -/

/-- The pieces of `s` between the occurrences of the byte `sep`. -/
def fields (sep : UInt8) : GoString → List GoString
  | [] => [[]]
  | c :: cs =>
    if c = sep then [] :: fields sep cs
    else
      match fields sep cs with
      | [] => [[c]]
      | g :: gs => (c :: g) :: gs

def isDigit (c : UInt8) : Bool := 48 ≤ c.toNat && c.toNat ≤ 57

/-- The number a run of decimal digits denotes. -/
def decimalValue (g : GoString) : Nat := g.foldl (fun n c => 10 * n + (c.toNat - 48)) 0

/-- One decimal group of an IPv4 literal: digits only, value at most 255. -/
def octet (g : GoString) : Option Nat :=
  if g ≠ [] ∧ g.all isDigit = true ∧ decimalValue g ≤ 255 then some (decimalValue g) else none

/-- The four octets of a dotted-decimal IPv4 literal. -/
def parseV4 (s : GoString) : Option (List Nat) :=
  match fields 46 s with
  | [a, b, c, d] =>
    match octet a, octet b, octet c, octet d with
    | some a, some b, some c, some d => some [a, b, c, d]
    | _, _, _, _ => none
  | _ => none

def hexDigit (c : UInt8) : Option Nat :=
  let n := c.toNat
  if 48 ≤ n ∧ n ≤ 57 then some (n - 48)
  else if 97 ≤ n ∧ n ≤ 102 then some (n - 87)
  else if 65 ≤ n ∧ n ≤ 70 then some (n - 55)
  else none

/-- One group of an IPv6 literal: one to four hexadecimal digits. -/
def hextet (g : GoString) : Option Nat :=
  if g = [] ∨ 4 < g.length then none
  else
    g.foldl
      (fun acc c =>
        match acc, hexDigit c with
        | some a, some h => some (16 * a + h)
        | _, _ => none)
      (some 0)

/-- The 16 bit groups of a colon separated run; with `mixed`, the last piece may be a dotted
IPv4 literal, which gives two groups. -/
def hextets (mixed : Bool) : List GoString → Option (List Nat)
  | [] => some []
  | [g] =>
    match hextet g with
    | some h => some [h]
    | none =>
      if mixed then
        match parseV4 g with
        | some [a, b, c, d] => some [256 * a + b, 256 * c + d]
        | _ => none
      else none
  | g :: g2 :: gs =>
    match hextet g, hextets mixed (g2 :: gs) with
    | some h, some hs => some (h :: hs)
    | _, _ => none

/-- The text before and after the first `::`. -/
def splitDoubleColon : GoString → Option (GoString × GoString)
  | [] => none
  | [_] => none
  | a :: b :: rest =>
    if a = 58 ∧ b = 58 then some ([], rest)
    else (splitDoubleColon (b :: rest)).map (fun p => (a :: p.1, p.2))

def colonGroups (s : GoString) : List GoString := if s = [] then [] else fields 58 s

/-- The eight 16 bit groups of an IPv6 literal, in full, compressed or mixed form. -/
def parseV6 (s : GoString) : Option (List Nat) :=
  match splitDoubleColon s with
  | none =>
    match hextets true (fields 58 s) with
    | some gs => if gs.length = 8 then some gs else none
    | none => none
  | some (l, r) =>
    match hextets false (colonGroups l), hextets true (colonGroups r) with
    | some a, some b =>
      if a.length + b.length ≤ 7 then
        some (a ++ List.replicate (8 - (a.length + b.length)) 0 ++ b)
      else none
    | _, _ => none

/-- Modelled from the spec: `IsValidV4` of package `ip` is not among the sources; true iff the
string is a dotted-decimal IPv4 literal with exactly four octets, each in [0,255], and
nothing before or after. -/
def specIsValidV4 (s : GoString) : Bool := (parseV4 s).isSome

/-- Modelled from the spec: `IsValidV6` of package `ip` is not among the sources; true iff the
string is an IPv6 literal, compressed and mixed forms included. -/
def specIsValidV6 (s : GoString) : Bool := (parseV6 s).isSome

/-- Modelled from the spec: `IsPrivate` of package `ip` is not among the sources; true iff the
literal is in a private-use range: for IPv4 the RFC 1918 blocks, loopback and link-local,
for IPv6 unique-local, loopback and link-local; false for anything that is not a literal. -/
def specIsPrivate (s : GoString) : Bool :=
  match parseV4 s with
  | some [a, b, _, _] =>
    a = 10 || (a = 172 && 16 ≤ b && b ≤ 31) || (a = 192 && b = 168) || a = 127 ||
      (a = 169 && b = 254)
  | _ =>
    match parseV6 s with
    | some (g :: gs) =>
      g / 512 = 126 || g / 64 = 1018 || decide (g :: gs = [0, 0, 0, 0, 0, 0, 0, 1])
    | _ => false

/-- The bytes allowed in a header field name. -/
def validHeaderFieldByte (c : UInt8) : Bool :=
  let n := c.toNat
  (48 ≤ n && n ≤ 57) || (65 ≤ n && n ≤ 90) || (97 ≤ n && n ≤ 122) ||
    [33, 35, 36, 37, 38, 39, 42, 43, 45, 46, 94, 95, 96, 124, 126].contains n

/-- Upper case at the start and after a hyphen, lower case elsewhere. -/
def titleCase : Bool → GoString → GoString
  | _, [] => []
  | upper, c :: cs =>
    let n := c.toNat
    let c2 : UInt8 :=
      if upper && 97 ≤ n && n ≤ 122 then UInt8.ofNat (n - 32)
      else if !upper && 65 ≤ n && n ≤ 90 then UInt8.ofNat (n + 32)
      else c
    c2 :: titleCase (c2 = 45) cs

/-- An executable `textproto.CanonicalMIMEHeaderKey`: a key with a byte that is not allowed
in a field name is left as it is. -/
def sampleCanonicalMIMEHeaderKey (s : GoString) : GoString :=
  if s.all validHeaderFieldByte then titleCase true s else s

def skipSpace : GoString → GoString
  | [] => []
  | c :: cs => if c = 32 ∨ c = 9 ∨ c = 10 ∨ c = 13 then skipSpace cs else c :: cs

/-- The byte an escape letter of a JSON string stands for. -/
def unescape (e : UInt8) : Option UInt8 :=
  if e = 34 ∨ e = 92 ∨ e = 47 then some e
  else if e = 110 then some 10
  else if e = 116 then some 9
  else if e = 114 then some 13
  else if e = 98 then some 8
  else if e = 102 then some 12
  else none

/-- A JSON string after its opening quote: the content, and the text after the closing
quote. -/
def jsonString : GoString → Option (GoString × GoString)
  | [] => none
  | c :: cs =>
    if c = 34 then some ([], cs)
    else if c = 92 then
      match cs with
      | [] => none
      | e :: rest =>
        match unescape e, jsonString rest with
        | some b, some p => some (b :: p.1, p.2)
        | _, _ => none
    else if c.toNat < 32 then none
    else (jsonString cs).map (fun p => (c :: p.1, p.2))

/-- A run of one or more digits, and the text after it. -/
def digitRun (s : GoString) : Option (GoString × GoString) :=
  if s.takeWhile isDigit = [] then none else some (s.takeWhile isDigit, s.dropWhile isDigit)

/-- A JSON number: its text, and the text after it. -/
def jsonNumber (s : GoString) : Option (GoString × GoString) := do
  let (sign, s1) := match s with
    | [] => (([] : GoString), s)
    | c :: r => if c = 45 then ([c], r) else ([], s)
  let (whole, s2) ← digitRun s1
  if 1 < whole.length ∧ whole.head? = some 48 then none
  let (frac, s3) ← match s2 with
    | [] => some (([] : GoString), s2)
    | c :: r => if c = 46 then (digitRun r).map (fun p => (c :: p.1, p.2)) else some ([], s2)
  let (exp, s4) ← match s3 with
    | [] => some (([] : GoString), s3)
    | c :: r =>
      if c = 101 ∨ c = 69 then
        match r with
        | [] => none
        | g :: r2 =>
          if g = 43 ∨ g = 45 then (digitRun r2).map (fun p => (c :: g :: p.1, p.2))
          else (digitRun r).map (fun p => (c :: p.1, p.2))
      else some ([], s3)
  pure (sign ++ whole ++ frac ++ exp, s4)

/-- What the JSON decoder is reading: a value, the rest of an array, or the rest of an
object. -/
inductive Goal where
  | value
  | elements (acc : List Dyn)
  | members (acc : List (GoString × Dyn))

/-- A JSON decoder by recursive descent: the value read, and the text after it. -/
def jsonParse : Nat → Goal → GoString → Option (Dyn × GoString)
  | 0, _, _ => none
  | fuel + 1, .value, s =>
    match skipSpace s with
    | [] => none
    | c :: r =>
      if c = 123 then
        match skipSpace r with
        | [] => none
        | c2 :: r2 => if c2 = 125 then some (.map [], r2) else jsonParse fuel (.members []) r
      else if c = 91 then
        match skipSpace r with
        | [] => none
        | c2 :: r2 => if c2 = 93 then some (.slice [], r2) else jsonParse fuel (.elements []) r
      else if c = 34 then (jsonString r).map (fun p => (.string p.1, p.2))
      else if (str "true").isPrefixOf (c :: r) then some (.bool true, r.drop 3)
      else if (str "false").isPrefixOf (c :: r) then some (.bool false, r.drop 4)
      else if (str "null").isPrefixOf (c :: r) then some (.null, r.drop 3)
      else (jsonNumber (c :: r)).map (fun p => (.float64 p.1, p.2))
  | fuel + 1, .elements acc, s =>
    match jsonParse fuel .value s with
    | none => none
    | some (v, r) =>
      match skipSpace r with
      | [] => none
      | c :: r2 =>
        if c = 44 then jsonParse fuel (.elements (acc ++ [v])) r2
        else if c = 93 then some (.slice (acc ++ [v]), r2)
        else none
  | fuel + 1, .members acc, s =>
    match skipSpace s with
    | [] => none
    | q :: r =>
      if q = 34 then
        match jsonString r with
        | none => none
        | some (k, r1) =>
          match skipSpace r1 with
          | [] => none
          | c1 :: r2 =>
            if c1 = 58 then
              match jsonParse fuel .value r2 with
              | none => none
              | some (v, r3) =>
                let acc2 := acc.filter (fun e => e.1 != k) ++ [(k, v)]
                match skipSpace r3 with
                | [] => none
                | c3 :: r4 =>
                  if c3 = 44 then jsonParse fuel (.members acc2) r4
                  else if c3 = 125 then some (.map acc2, r4)
                  else none
            else none
      else none

/-- An executable `json.Unmarshal` into a `map[string]interface{}`: a JSON object gives its
members, `null` leaves the map nil, and any other text is an error. -/
def sampleUnmarshal (response : GoString) : Except GoError (List (GoString × Dyn)) :=
  if skipSpace response = [] then .error (.library (str "unexpected end of JSON input"))
  else
    match jsonParse (2 * response.length + 2) .value response with
    | none => .error (.library (str "invalid character in JSON input"))
    | some (v, rest) =>
      if skipSpace rest = [] then
        match v with
        | .map kv => .ok kv
        | .null => .ok []
        | _ => .error (.library (str "json: cannot unmarshal into Go value of type map"))
      else .error (.library (str "invalid character after top-level value"))

/-- One term of a sample query. -/
inductive SampleTerm where
  /-- The path `.k1.k2...`; `.` alone is the empty path. -/
  | path (keys : List GoString)
  | empty
  | halt
  | haltError

def trimSpace (s : GoString) : GoString := skipSpace (skipSpace s.reverse).reverse

def isIdentByte (c : UInt8) : Bool :=
  let n := c.toNat
  (48 ≤ n && n ≤ 57) || (65 ≤ n && n ≤ 90) || (97 ≤ n && n ≤ 122) || n = 95

def parseTerm (t : GoString) : Option SampleTerm :=
  if t = str "empty" then some .empty
  else if t = str "halt" then some .halt
  else if t = str "halt_error" then some .haltError
  else
    match t with
    | [] => none
    | c :: r =>
      if c = 46 then
        if r = [] then some (.path [])
        else if (fields 46 r).all (fun k => !k.isEmpty && k.all isIdentByte) then
          some (.path (fields 46 r))
        else none
      else none

def parseTerms : List GoString → Option (List SampleTerm)
  | [] => some []
  | t :: ts =>
    match parseTerm (trimSpace t), parseTerms ts with
    | some q, some qs => some (q :: qs)
    | _, _ => none

/-- An executable `gojq.Parse` for comma separated terms. -/
def sampleParse (src : GoString) : Except GoError (List SampleTerm) :=
  match parseTerms (fields 44 src) with
  | some q => .ok q
  | none => .error (.library (str "unexpected token"))

/-- The value at a path: a missing key and a key of `null` give `null`, a key of anything
else that is not an object is an error. -/
def getPath : List GoString → Dyn → Yielded
  | [], v => .value v
  | k :: ks, .map kv =>
    match kv.find? (fun e => e.1 == k) with
    | some e => getPath ks e.2
    | none => getPath ks .null
  | _ :: ks, .null => getPath ks .null
  | _ :: _, _ => .error (.library (str "expected an object"))

def runTerm (doc : Dyn) : SampleTerm → List Yielded
  | .path keys => [getPath keys doc]
  | .empty => []
  | .halt => [.error (.halt none)]
  | .haltError => [.error (.halt (some doc))]

/-- The results up to and including the first error. -/
def untilError : List Yielded → List Yielded
  | [] => []
  | .error e :: _ => [.error e]
  | .value v :: ys => .value v :: untilError ys

/-- An executable `query.RunWithContext`: the results of the terms, in order. -/
def sampleRun (q : List SampleTerm) (body : List (GoString × Dyn)) : Iter :=
  fun i => (untilError (q.flatMap (runTerm (.map body))))[i]?

/-- An executable `World` around a transport. -/
def sampleWorld (transport : Request → Except GoError Response) : World :=
  { IsValidV4 := specIsValidV4
    IsValidV6 := specIsValidV6
    IsPrivate := specIsPrivate
    canonicalMIMEHeaderKey := sampleCanonicalMIMEHeaderKey
    newRequestErr := fun url =>
      if url.any (fun c => c.toNat < 32 || c.toNat = 127) then
        some (.library (str "net/url: invalid control character in URL"))
      else none
    clientDo := transport
    jsonUnmarshal := sampleUnmarshal
    Query := List SampleTerm
    gojqParse := sampleParse
    gojqRun := sampleRun }

/-- A response with one Content-Type header and a body read in full. -/
def reply (contentTypeValue : GoString) (body : GoString) : Response :=
  { header := [(str "Content-Type", [contentTypeValue])]
    body := body
    readErr := none }

/-- A transport on which every request is answered with the same response. -/
def answering (contentTypeValue : GoString) (body : GoString) :
    Request → Except GoError Response :=
  fun _ => .ok (reply contentTypeValue body)

/-- A transport that answers a request with the URL it was asked for, as plain text. -/
def echoURL : Request → Except GoError Response :=
  fun req => .ok (reply (str "text/plain") req.url)

/-- A detector for `http://example.com/ip` with nothing else configured. -/
def plainDetector (policy : LocalAddressPolicy) (stack : NetworkStack) :
    ThirdPartyAddressDetector :=
  { url := str "http://example.com/ip"
    jsonPath := []
    params := []
    headers := []
    username := []
    password := []
    localAddressPolicy := policy
    stack := stack }

/-- The detector `plainDetector` with a `jsonPath`. -/
def jsonDetector (jsonPath : GoString) (policy : LocalAddressPolicy) (stack : NetworkStack) :
    ThirdPartyAddressDetector :=
  { plainDetector policy stack with jsonPath := jsonPath }

/-- The detector `plainDetector` with the query parameter `format=json` configured. -/
def paramsDetector : ThirdPartyAddressDetector :=
  { plainDetector LocalAddressPolicyIgnore IPv4 with params := [(str "format", str "json")] }

/-- A detection spec of type `ThirdParty` for `http://example.com/ip`. -/
def thirdPartySpec (policy : Option LocalAddressPolicy) : AddressDetectionSpec :=
  { DetectionType := AddressDetectionThirdParty
    LocalAddressPolicy := policy
    Interface := none
    API := some
      { URL := str "http://example.com/ip"
        JsonPath := none
        Params := none
        Headers := none
        Username := none
        Password := none } }

/-- The payload of the example of the spec, with a number next to the address. -/
def examplePayload : GoString := str "\x7b\"data\":\x7b\"ip\":\"1.2.3.4\"\x7d,\"n\":1\x7d"

/-- The text after the first `?` of a URL, up to a `#`: its query string. -/
def rawQuery (url : GoString) : GoString :=
  ((url.dropWhile (fun c => c != 63)).drop 1).takeWhile (fun c => c != 35)

/-! ## Theorems -/

/-- The model of `strings.Contains` decides whether `substr` occurs in `s` as a contiguous
run of bytes. -/
theorem stringsContains_iff_infix (s substr : GoString) :
    stringsContains s substr = true ↔ substr <:+: s := by
  induction s with
  | nil => simp [stringsContains, List.isEmpty_iff]
  | cons c s ih =>
    simp only [stringsContains, Bool.or_eq_true, ih, List.isPrefixOf_iff_prefix]
    exact List.infix_cons_iff.symm

/-- C1: under the policy `Ignore`, a candidate that is valid for the configured stack and
private makes `Detect` return the empty address and an error carrying the candidate:
"local address is ignored: c" on an IPv4 detector, "ULA address is ignored: c" on an IPv6
detector. -/
theorem Detect_ignore_private_rejected (w : World) (d : ThirdPartyAddressDetector)
    (c : GoString)
    (hpolicy : d.localAddressPolicy = LocalAddressPolicyIgnore)
    (hreq : requestAddress w d = .ok ⟨c, none⟩)
    (hprivate : w.IsPrivate c = true) :
    (d.stack = IPv4 → w.IsValidV4 c = true →
      Detect w d = .ok ⟨[], some (.errorf (str "local address is ignored: " ++ c))⟩) ∧
    (d.stack = IPv6 → w.IsValidV6 c = true →
      Detect w d = .ok ⟨[], some (.errorf (str "ULA address is ignored: " ++ c))⟩) := by
  constructor
  · intro hstack hvalid
    have h46 : ¬ d.stack = IPv6 := by rw [hstack]; decide
    simp [Detect, h46, detectV4, hreq, hvalid, hprivate, hpolicy]
  · intro hstack hvalid
    simp [Detect, hstack, detectV6, hreq, hvalid, hprivate, hpolicy]

/-- C2: a candidate that is valid for the configured stack is returned unchanged with a nil
error when it is not private, whatever the policy, and when it is private and the policy is
`Allow` or `Prefer`. -/
theorem Detect_accepts_candidate (w : World) (d : ThirdPartyAddressDetector) (c : GoString)
    (hreq : requestAddress w d = .ok ⟨c, none⟩)
    (hvalid : (d.stack = IPv4 ∧ w.IsValidV4 c = true) ∨
      (d.stack = IPv6 ∧ w.IsValidV6 c = true))
    (haccept : w.IsPrivate c = false ∨ d.localAddressPolicy = LocalAddressPolicyAllow ∨
      d.localAddressPolicy = LocalAddressPolicyPrefer) :
    Detect w d = .ok ⟨c, none⟩ := by
  have hpol : w.IsPrivate c = true → ¬ d.localAddressPolicy = LocalAddressPolicyIgnore := by
    intro hp
    rcases haccept with h | h | h
    · rw [hp] at h; cases h
    · rw [h]; decide
    · rw [h]; decide
  rcases hvalid with ⟨hstack, hv⟩ | ⟨hstack, hv⟩
  · have h46 : ¬ d.stack = IPv6 := by rw [hstack]; decide
    cases hp : w.IsPrivate c
    · simp [Detect, h46, detectV4, hreq, hv, hp]
    · simp [Detect, h46, detectV4, hreq, hv, hp, hpol hp]
  · cases hp : w.IsPrivate c
    · simp [Detect, hstack, detectV6, hreq, hv, hp]
    · simp [Detect, hstack, detectV6, hreq, hv, hp, hpol hp]

/-- C3: whatever the policy and whatever `IsPrivate` says, a candidate that fails the format
check of the configured stack makes `Detect` return the empty address and the error
"invalid address: c"; the candidate is not returned. -/
theorem Detect_invalid_rejected (w : World) (d : ThirdPartyAddressDetector) (c : GoString)
    (hreq : requestAddress w d = .ok ⟨c, none⟩) :
    (d.stack = IPv4 → w.IsValidV4 c = false →
      Detect w d = .ok ⟨[], some (.errorf (str "invalid address: " ++ c))⟩) ∧
    (d.stack = IPv6 → w.IsValidV6 c = false →
      Detect w d = .ok ⟨[], some (.errorf (str "invalid address: " ++ c))⟩) := by
  constructor
  · intro hstack hinvalid
    have h46 : ¬ d.stack = IPv6 := by rw [hstack]; decide
    simp [Detect, h46, detectV4, hreq, hinvalid]
  · intro hstack hinvalid
    simp [Detect, hstack, detectV6, hreq, hinvalid]

/-- C4: when the detection spec has its `API` part, the constructor returns a detector;
the policy of a constructed detector is `Ignore` (hence neither `Allow` nor `Prefer`) when
the spec has no `LocalAddressPolicy`, and the supplied value when it has one. -/
theorem NewThirdPartyAddressDetector_policy (detectionSpec : AddressDetectionSpec)
    (stack : NetworkStack) :
    (∀ api, detectionSpec.API = some api →
      ∃ d, NewThirdPartyAddressDetector detectionSpec stack = .ok d) ∧
    (∀ d, NewThirdPartyAddressDetector detectionSpec stack = .ok d →
      (detectionSpec.LocalAddressPolicy = none →
        d.localAddressPolicy = LocalAddressPolicyIgnore ∧
        d.localAddressPolicy ≠ LocalAddressPolicyAllow ∧
        d.localAddressPolicy ≠ LocalAddressPolicyPrefer) ∧
      (∀ p, detectionSpec.LocalAddressPolicy = some p → d.localAddressPolicy = p)) := by
  constructor
  · intro api hapi
    simp [NewThirdPartyAddressDetector, hapi]
  · intro d hd
    cases hapi : detectionSpec.API with
    | none => simp [NewThirdPartyAddressDetector, hapi] at hd
    | some api =>
      simp only [NewThirdPartyAddressDetector, hapi, Except.ok.injEq] at hd
      subst hd
      constructor
      · intro hnone
        refine ⟨?_, ?_, ?_⟩
        · simp only [hnone]
        · simp only [hnone]; decide
        · simp only [hnone]; decide
      · intro p hp
        simp only [hp]

/-- C5 (amended): with a non-empty `jsonPath`, whatever the Content-Type and the body of
the response, `requestAddress` returns exactly what `extractIP` returns on the body and the
path; so a non-empty body that does not decode gives the error of the decoder, and an empty
body gives the error "response is empty"; in both cases no candidate is returned. -/
theorem requestAddress_jsonPath_wins (w : World) (d : ThirdPartyAddressDetector)
    (res : Response)
    (hpath : d.jsonPath ≠ [])
    (hnew : w.newRequestErr d.url = none)
    (hres : w.clientDo (requestOf w d) = .ok res) :
    requestAddress w d = extractIP w res.body d.jsonPath ∧
    (∀ e, res.body ≠ [] → w.jsonUnmarshal res.body = .error e →
      requestAddress w d = .ok ⟨[], some e⟩) ∧
    (res.body = [] →
      requestAddress w d = .ok ⟨[], some (.errorf (str "response is empty"))⟩) := by
  have hrun : requestAddress w d = extractIP w res.body d.jsonPath := by
    simp [requestAddress, hnew, hres, hpath]
  refine ⟨hrun, ?_, ?_⟩
  · intro e hbody hjson
    have hjp : ¬ d.jsonPath.length = 0 := by
      intro h; exact hpath (List.length_eq_zero.mp h)
    have hbl : ¬ res.body.length = 0 := by
      intro h; exact hbody (List.length_eq_zero.mp h)
    rw [hrun]
    simp [extractIP, hbl, hjp, hjson]
  · intro hbody
    rw [hrun]
    simp [extractIP, hbody]

/-- C6: with no `jsonPath` and a Content-Type that does not contain "application/json",
`requestAddress` returns the body of the response, byte for byte, with a nil error; the
extraction engine has no part in it: the result is the same in every world with the same
HTTP side, whatever its decoder and query library do. -/
theorem requestAddress_plain_body (w : World) (d : ThirdPartyAddressDetector)
    (res : Response)
    (hpath : d.jsonPath = [])
    (hnew : w.newRequestErr d.url = none)
    (hres : w.clientDo (requestOf w d) = .ok res)
    (hct : stringsContains (contentType w res) (str "application/json") = false) :
    requestAddress w d = .ok ⟨res.body, none⟩ ∧
    (∀ w2 : World, w2.canonicalMIMEHeaderKey = w.canonicalMIMEHeaderKey →
      w2.newRequestErr = w.newRequestErr → w2.clientDo = w.clientDo →
      requestAddress w2 d = .ok ⟨res.body, none⟩) := by
  constructor
  · simp [requestAddress, hnew, hres, hpath, hct]
  · intro w2 hkey hnew2 hdo
    have hreq2 : requestOf w2 d = requestOf w d := by
      simp only [requestOf, headerSet, hkey]
    have hct2 : contentType w2 res = contentType w res := by
      simp only [contentType, headerGet, hkey]
    simp [requestAddress, hnew2, hdo, hreq2, hct2, hnew, hres, hpath, hct]

/-- C7: with no `jsonPath` and a Content-Type that contains "application/json",
`requestAddress` returns the empty string and the error "no jsonpath specified" for every
body; the extraction engine has no part in it: the result is the same in every world with
the same HTTP side, whatever its decoder and query library do. -/
theorem requestAddress_missing_jsonPath (w : World) (d : ThirdPartyAddressDetector)
    (res : Response)
    (hpath : d.jsonPath = [])
    (hnew : w.newRequestErr d.url = none)
    (hres : w.clientDo (requestOf w d) = .ok res)
    (hct : stringsContains (contentType w res) (str "application/json") = true) :
    requestAddress w d = .ok ⟨[], some (.errorf (str "no jsonpath specified"))⟩ ∧
    (∀ w2 : World, w2.canonicalMIMEHeaderKey = w.canonicalMIMEHeaderKey →
      w2.newRequestErr = w.newRequestErr → w2.clientDo = w.clientDo →
      requestAddress w2 d = .ok ⟨[], some (.errorf (str "no jsonpath specified"))⟩) := by
  constructor
  · simp [requestAddress, hnew, hres, hpath, hct]
  · intro w2 hkey hnew2 hdo
    have hreq2 : requestOf w2 d = requestOf w d := by
      simp only [requestOf, headerSet, hkey]
    have hct2 : contentType w2 res = contentType w res := by
      simp only [contentType, headerGet, hkey]
    simp [requestAddress, hnew2, hdo, hreq2, hct2, hnew, hres, hpath, hct]

/-- The request sent, and the result of `requestAddress`, do not depend on the configured
`params`: the request targets `d.url` as it is. -/
theorem requestAddress_params_irrelevant (w : World) (d : ThirdPartyAddressDetector)
    (ps : StringMap) :
    (requestOf w d).url = d.url ∧
    requestOf w { d with params := ps } = requestOf w d ∧
    requestAddress w { d with params := ps } = requestAddress w d :=
  ⟨rfl, rfl, rfl⟩

/-- C9: on a non-empty payload that decodes and a non-empty query that compiles, when the
first value the query yields is neither an error value nor a string, `extractIP` does not
return: the type assertion `v.(string)` panics. -/
theorem extractIP_non_string_panics (w : World) (response jsonpath : GoString)
    (body : List (GoString × Dyn)) (query : w.Query) (v : Dyn)
    (hresp : response ≠ []) (hpath : jsonpath ≠ [])
    (hbody : w.jsonUnmarshal response = .ok body)
    (hquery : w.gojqParse jsonpath = .ok query)
    (hfirst : w.gojqRun query body 0 = some (.value v))
    (hnostr : ∀ s, v ≠ .string s) :
    extractIP w response jsonpath = .error (.interfaceConversion v) := by
  have hjp : ¬ jsonpath.length = 0 := by
    intro h; exact hpath (List.length_eq_zero.mp h)
  have hrl : ¬ response.length = 0 := by
    intro h; exact hresp (List.length_eq_zero.mp h)
  simp only [extractIP, hrl, hjp, hbody, hquery, hfirst, if_false]
  cases v with
  | string s => exact absurd rfl (hnostr s)
  | _ => rfl

/-- C10: on a non-empty payload that decodes and a non-empty query that compiles,
`extractIP` is decided by the first result of the query alone, whatever the later ones: a
string is returned with a nil error; no result, or a halt error without a value, gives the
empty string and a nil error; any other error value is returned as the error. -/
theorem extractIP_first_result (w : World) (response jsonpath : GoString)
    (body : List (GoString × Dyn)) (query : w.Query)
    (hresp : response ≠ []) (hpath : jsonpath ≠ [])
    (hbody : w.jsonUnmarshal response = .ok body)
    (hquery : w.gojqParse jsonpath = .ok query) :
    (∀ s, w.gojqRun query body 0 = some (.value (.string s)) →
      extractIP w response jsonpath = .ok ⟨s, none⟩) ∧
    (w.gojqRun query body 0 = none → extractIP w response jsonpath = .ok ⟨[], none⟩) ∧
    (w.gojqRun query body 0 = some (.error (.halt none)) →
      extractIP w response jsonpath = .ok ⟨[], none⟩) ∧
    (∀ e, w.gojqRun query body 0 = some (.error e) → e ≠ .halt none →
      extractIP w response jsonpath = .ok ⟨[], some e⟩) := by
  have hjp : ¬ jsonpath.length = 0 := by
    intro h; exact hpath (List.length_eq_zero.mp h)
  have hrl : ¬ response.length = 0 := by
    intro h; exact hresp (List.length_eq_zero.mp h)
  have hrun : extractIP w response jsonpath = extractLoop (w.gojqRun query body 0) := by
    simp only [extractIP, hrl, hjp, hbody, hquery, if_false]
  refine ⟨?_, ?_, ?_, ?_⟩
  · intro s h; rw [hrun, h]; rfl
  · intro h; rw [hrun, h]; rfl
  · intro h; rw [hrun, h]; rfl
  · intro e h hne
    rw [hrun, h]
    have hh : isHaltWithoutValue e = false := by
      cases e with
      | halt value =>
        cases value with
        | none => exact absurd rfl hne
        | some x => rfl
      | _ => rfl
    simp [extractLoop, hh]

/-! ## The theorems at concrete inputs -/

/-- C1 at "192.168.1.1" on an IPv4 detector and at "fc00::1" on an IPv6 detector, both with
the policy `Ignore`. -/
theorem Detect_ignore_private_rejected_witness :
    Detect (sampleWorld (answering (str "text/plain") (str "192.168.1.1")))
        (plainDetector LocalAddressPolicyIgnore IPv4) =
      .ok ⟨[], some (.errorf (str "local address is ignored: 192.168.1.1"))⟩ ∧
    Detect (sampleWorld (answering (str "text/plain") (str "fc00::1")))
        (plainDetector LocalAddressPolicyIgnore IPv6) =
      .ok ⟨[], some (.errorf (str "ULA address is ignored: fc00::1"))⟩ :=
  ⟨(Detect_ignore_private_rejected
      (sampleWorld (answering (str "text/plain") (str "192.168.1.1")))
      (plainDetector LocalAddressPolicyIgnore IPv4) (str "192.168.1.1") rfl rfl
      (by decide)).1 rfl (by decide),
   (Detect_ignore_private_rejected
      (sampleWorld (answering (str "text/plain") (str "fc00::1")))
      (plainDetector LocalAddressPolicyIgnore IPv6) (str "fc00::1") rfl rfl
      (by decide)).2 rfl (by decide)⟩

/-- C2 at the private "192.168.1.1" under `Allow` on an IPv4 detector, and at the public
"2001:4860:4860::8888" under `Ignore` on an IPv6 detector. -/
theorem Detect_accepts_candidate_witness :
    Detect (sampleWorld (answering (str "text/plain") (str "192.168.1.1")))
        (plainDetector LocalAddressPolicyAllow IPv4) = .ok ⟨str "192.168.1.1", none⟩ ∧
    Detect (sampleWorld (answering (str "text/plain") (str "2001:4860:4860::8888")))
        (plainDetector LocalAddressPolicyIgnore IPv6) =
      .ok ⟨str "2001:4860:4860::8888", none⟩ :=
  ⟨Detect_accepts_candidate
      (sampleWorld (answering (str "text/plain") (str "192.168.1.1")))
      (plainDetector LocalAddressPolicyAllow IPv4) (str "192.168.1.1") rfl
      (Or.inl ⟨rfl, by decide⟩) (Or.inr (Or.inl rfl)),
   Detect_accepts_candidate
      (sampleWorld (answering (str "text/plain") (str "2001:4860:4860::8888")))
      (plainDetector LocalAddressPolicyIgnore IPv6) (str "2001:4860:4860::8888") rfl
      (Or.inr ⟨rfl, by decide⟩) (Or.inl (by decide))⟩

/-- C3 at an IPv6 literal on an IPv4 detector and at an IPv4 literal on an IPv6 detector,
both with the policy `Allow`. -/
theorem Detect_invalid_rejected_witness :
    Detect (sampleWorld (answering (str "text/plain") (str "fc00::1")))
        (plainDetector LocalAddressPolicyAllow IPv4) =
      .ok ⟨[], some (.errorf (str "invalid address: fc00::1"))⟩ ∧
    Detect (sampleWorld (answering (str "text/plain") (str "8.8.8.8")))
        (plainDetector LocalAddressPolicyAllow IPv6) =
      .ok ⟨[], some (.errorf (str "invalid address: 8.8.8.8"))⟩ :=
  ⟨(Detect_invalid_rejected
      (sampleWorld (answering (str "text/plain") (str "fc00::1")))
      (plainDetector LocalAddressPolicyAllow IPv4) (str "fc00::1") rfl).1 rfl (by decide),
   (Detect_invalid_rejected
      (sampleWorld (answering (str "text/plain") (str "8.8.8.8")))
      (plainDetector LocalAddressPolicyAllow IPv6) (str "8.8.8.8") rfl).2 rfl (by decide)⟩

/-- C4 at a spec without a policy and at a spec with the policy `Prefer`. -/
theorem NewThirdPartyAddressDetector_policy_witness :
    NewThirdPartyAddressDetector (thirdPartySpec none) IPv4 =
      .ok (plainDetector LocalAddressPolicyIgnore IPv4) ∧
    (plainDetector LocalAddressPolicyIgnore IPv4).localAddressPolicy =
      LocalAddressPolicyIgnore ∧
    (plainDetector LocalAddressPolicyPrefer IPv6).localAddressPolicy =
      LocalAddressPolicyPrefer :=
  ⟨rfl,
   (((NewThirdPartyAddressDetector_policy (thirdPartySpec none) IPv4).2
      (plainDetector LocalAddressPolicyIgnore IPv4) rfl).1 rfl).1,
   ((NewThirdPartyAddressDetector_policy (thirdPartySpec (some LocalAddressPolicyPrefer))
      IPv6).2 (plainDetector LocalAddressPolicyPrefer IPv6) rfl).2
      LocalAddressPolicyPrefer rfl⟩

/-- C5 as stated fails at an empty body: the decoder rejects the empty text with
"unexpected end of JSON input", and `requestAddress` with the `jsonPath` ".ip" returns the
error "response is empty", which is not the error of the decoder. -/
theorem requestAddress_empty_body_not_decoder_error :
    (sampleWorld (answering (str "text/plain") [])).jsonUnmarshal
        (reply (str "text/plain") []).body =
      .error (.library (str "unexpected end of JSON input")) ∧
    requestAddress (sampleWorld (answering (str "text/plain") []))
        (jsonDetector (str ".ip") LocalAddressPolicyIgnore IPv4) =
      .ok ⟨[], some (.errorf (str "response is empty"))⟩ ∧
    requestAddress (sampleWorld (answering (str "text/plain") []))
        (jsonDetector (str ".ip") LocalAddressPolicyIgnore IPv4) ≠
      .ok ⟨[], some (.library (str "unexpected end of JSON input"))⟩ := by
  refine ⟨rfl, rfl, ?_⟩
  intro h
  have h2 : (.ok ⟨[], some (.errorf (str "response is empty"))⟩ : Except Panic Ret) =
      .ok ⟨[], some (.library (str "unexpected end of JSON input"))⟩ := h
  cases h2

/-- C5 (amended) at the plain-text body "1.2.3.4" with the `jsonPath` ".ip": the result is
the error of the decoder, not the body. -/
theorem requestAddress_jsonPath_wins_witness :
    requestAddress (sampleWorld (answering (str "text/plain") (str "1.2.3.4")))
        (jsonDetector (str ".ip") LocalAddressPolicyIgnore IPv4) =
      .ok ⟨[], some (.library (str "invalid character after top-level value"))⟩ :=
  (requestAddress_jsonPath_wins
    (sampleWorld (answering (str "text/plain") (str "1.2.3.4")))
    (jsonDetector (str ".ip") LocalAddressPolicyIgnore IPv4)
    (reply (str "text/plain") (str "1.2.3.4")) (by decide) rfl rfl).2.1
    (.library (str "invalid character after top-level value")) (by decide) rfl

/-- C6 at the plain-text body "1.2.3.4" with no `jsonPath`. -/
theorem requestAddress_plain_body_witness :
    requestAddress (sampleWorld (answering (str "text/plain") (str "1.2.3.4")))
        (plainDetector LocalAddressPolicyIgnore IPv4) = .ok ⟨str "1.2.3.4", none⟩ :=
  (requestAddress_plain_body
    (sampleWorld (answering (str "text/plain") (str "1.2.3.4")))
    (plainDetector LocalAddressPolicyIgnore IPv4)
    (reply (str "text/plain") (str "1.2.3.4")) rfl rfl rfl (by decide)).1

/-- C7 at a JSON response with no `jsonPath` configured. -/
theorem requestAddress_missing_jsonPath_witness :
    requestAddress
        (sampleWorld (answering (str "application/json; charset=utf-8") examplePayload))
        (plainDetector LocalAddressPolicyIgnore IPv4) =
      .ok ⟨[], some (.errorf (str "no jsonpath specified"))⟩ :=
  (requestAddress_missing_jsonPath
    (sampleWorld (answering (str "application/json; charset=utf-8") examplePayload))
    (plainDetector LocalAddressPolicyIgnore IPv4)
    (reply (str "application/json; charset=utf-8") examplePayload) rfl rfl rfl
    (by decide)).1

/-- C8: with the query parameter `format=json` configured, the local `params` holds it,
but the request sent targets "http://example.com/ip" with an empty query string: a server
that answers with the URL it was asked for sees no parameter. -/
theorem requestAddress_params_not_attached :
    requestParams paramsDetector = [(str "format", [str "json"])] ∧
    (requestOf (sampleWorld echoURL) paramsDetector).url = str "http://example.com/ip" ∧
    rawQuery (requestOf (sampleWorld echoURL) paramsDetector).url = [] ∧
    requestAddress (sampleWorld echoURL) paramsDetector =
      .ok ⟨str "http://example.com/ip", none⟩ :=
  ⟨by decide, by decide, by decide, rfl⟩

/-- C9 at the payload with the member "ip" set to 1 and the query ".ip": the first value
is the number 1, and `extractIP` panics. -/
theorem extractIP_non_string_panics_witness :
    extractIP (sampleWorld echoURL) (str "\x7b\"ip\":1\x7d") (str ".ip") =
      .error (.interfaceConversion (.float64 (str "1"))) :=
  extractIP_non_string_panics (sampleWorld echoURL) (str "\x7b\"ip\":1\x7d") (str ".ip")
    [(str "ip", .float64 (str "1"))] [.path [str "ip"]] (.float64 (str "1"))
    (by decide) (by decide) rfl rfl rfl (fun _ h => by cases h)

/-- C10 at the example payload and the query ".data.ip, .n": the first result, the string
"1.2.3.4", is returned, and the number that follows is not looked at. -/
theorem extractIP_first_result_witness :
    extractIP (sampleWorld echoURL) examplePayload (str ".data.ip, .n") =
      .ok ⟨str "1.2.3.4", none⟩ :=
  (extractIP_first_result (sampleWorld echoURL) examplePayload (str ".data.ip, .n")
    [(str "data", .map [(str "ip", .string (str "1.2.3.4"))]), (str "n", .float64 (str "1"))]
    [.path [str "data", str "ip"], .path [str "n"]]
    (by decide) (by decide) rfl rfl).1 (str "1.2.3.4") rfl

end MicroDDNS
